import Mathlib

/-!
Verification of the UE batch-rendering orchestration scripts.

This file gives a shallow embedding of `motion_patterns.py` (the motion
calculator library) and `render.py` (the per-job `AnimationRenderer` state
machine and the `ComprehensiveRenderer` batch sequencer), and proves the
specified properties about them.

Modelling conventions:
* Python floats are modelled as exact rationals (`ℚ`); the transcendental
  functions of Python's `math` module (`sin`, `cos`, `pi`, `sqrt`) are
  modelled as an abstract structure `PyMath` passed to every definition so
  that all statements are universally quantified over the actual library.
* Python `int(x)` (truncation toward zero) is `pyInt`, and float `x % 1.0`
  (floor-based remainder) is `pyMod`.
* Asynchronous tick callbacks are CPS-eliminated: each tick-driven loop of
  the source becomes a terminating recursive function, and the external
  world (actor lookup, file visibility per poll tick, export success) is an
  environment of oracles.
-/

set_option linter.unusedVariables false

/-- Abstract model of the functions of Python's `math` module used by
`motion_patterns.py` and `render.py`. -/
structure PyMath where
  sin : ℚ → ℚ
  cos : ℚ → ℚ
  pi : ℚ
  sqrt : ℚ → ℚ

/-- The three entries of the `motion_params` dict built in
`AnimationRenderer._move_actor_and_schedule_screenshot`. -/
structure MotionParams where
  total_distance : ℚ
  y_amplitude : ℚ
  y_frequency : ℚ
deriving DecidableEq

/-- Python `int(x)` on a float: truncation toward zero, i.e. the floor
for nonnegative arguments and the ceiling for negative ones. -/
def pyInt (q : ℚ) : ℤ := if 0 ≤ q then ⌊q⌋ else ⌈q⌉

/-- Python float `a % b` for `b > 0`: floor-based remainder
`a - b * floor (a / b)` (used in the sources only as `% 1.0`). -/
def pyMod (a b : ℚ) : ℚ := a - b * ⌊a / b⌋

/-- The seam-avoidance epsilon `1e-6` of `motion_patterns.py`. -/
def seamEpsilon : ℚ := 1 / 1000000

/-- `calculate_sine_wave` (motion_patterns.py): the computation after the
phase has been fixed. -/
def sine_wave_body (M : PyMath) (alpha sx sy sz : ℚ) (params : MotionParams)
    (t : ℚ) : ℚ × ℚ × ℚ :=
  (sx + alpha * params.total_distance, sy + params.y_amplitude * M.sin t, sz)

/-- `calculate_sine_wave`: phase `t = alpha * y_frequency * 2 * pi`, with
`1e-6` subtracted on the last frame. -/
def calculate_sine_wave (M : PyMath) (alpha sx sy sz : ℚ)
    (frame_index num_frames : ℤ) (params : MotionParams) : ℚ × ℚ × ℚ :=
  let t := alpha * params.y_frequency * 2 * M.pi
  let t := if frame_index = num_frames - 1 then t - seamEpsilon else t
  sine_wave_body M alpha sx sy sz params t

/-- `calculate_z_shape`: three-segment Z trajectory (no epsilon
adjustment in the source). -/
def calculate_z_shape (M : PyMath) (alpha sx sy sz : ℚ)
    (frame_index num_frames : ℤ) (params : MotionParams) : ℚ × ℚ × ℚ :=
  let xy : ℚ × ℚ :=
    if alpha < 33 / 100 then
      let segment_alpha := alpha / (33 / 100)
      (sx + segment_alpha * params.total_distance * (4 / 10),
       sy + segment_alpha * params.y_amplitude)
    else if alpha < 67 / 100 then
      let segment_alpha := (alpha - 33 / 100) / (34 / 100)
      (sx + (4 / 10 + segment_alpha * (4 / 10)) * params.total_distance,
       sy + params.y_amplitude)
    else
      let segment_alpha := (alpha - 67 / 100) / (33 / 100)
      (sx + (8 / 10 + segment_alpha * (2 / 10)) * params.total_distance,
       sy + params.y_amplitude * (1 - segment_alpha))
  (xy.1, xy.2, sz)

/-- `calculate_circle`: the computation after the phase has been fixed. -/
def circle_body (M : PyMath) (alpha sx sy sz : ℚ) (params : MotionParams)
    (t : ℚ) : ℚ × ℚ × ℚ :=
  let r := |params.y_amplitude|
  let center_x := sx + alpha * params.total_distance
  (center_x + r * M.cos t, sy + r * M.sin t, sz)

/-- `calculate_circle`. -/
def calculate_circle (M : PyMath) (alpha sx sy sz : ℚ)
    (frame_index num_frames : ℤ) (params : MotionParams) : ℚ × ℚ × ℚ :=
  let t := alpha * params.y_frequency * 2 * M.pi
  let t := if frame_index = num_frames - 1 then t - seamEpsilon else t
  circle_body M alpha sx sy sz params t

/-- `calculate_spiral`: the computation after the phase has been fixed. -/
def spiral_body (M : PyMath) (alpha sx sy sz : ℚ) (params : MotionParams)
    (t : ℚ) : ℚ × ℚ × ℚ :=
  let r := |params.y_amplitude| * alpha
  let center_x := sx + alpha * params.total_distance
  (center_x + r * M.cos t, sy + r * M.sin t, sz)

/-- `calculate_spiral`. -/
def calculate_spiral (M : PyMath) (alpha sx sy sz : ℚ)
    (frame_index num_frames : ℤ) (params : MotionParams) : ℚ × ℚ × ℚ :=
  let t := alpha * params.y_frequency * 2 * M.pi
  let t := if frame_index = num_frames - 1 then t - seamEpsilon else t
  spiral_body M alpha sx sy sz params t

/-- `calculate_square_wave`: square wave on the Y axis.  NOTE: the source
contains no last-frame epsilon adjustment for this pattern. -/
def calculate_square_wave (M : PyMath) (alpha sx sy sz : ℚ)
    (frame_index num_frames : ℤ) (params : MotionParams) : ℚ × ℚ × ℚ :=
  let segment := pyInt (alpha * 4)
  let segment_alpha := pyMod (alpha * 4) 1
  let current_x := sx + alpha * params.total_distance
  let current_y :=
    if segment % 2 = 0 then sy + params.y_amplitude * segment_alpha
    else sy + params.y_amplitude * (1 - segment_alpha)
  (current_x, current_y, sz)

/-- `calculate_zigzag`: zigzag pattern.  NOTE: the source contains no
last-frame epsilon adjustment for this pattern. -/
def calculate_zigzag (M : PyMath) (alpha sx sy sz : ℚ)
    (frame_index num_frames : ℤ) (params : MotionParams) : ℚ × ℚ × ℚ :=
  let segments : ℤ := max 2 (pyInt (params.y_frequency * 4))
  let pos := alpha * (segments : ℚ)
  let seg_index := pyInt pos
  let seg_alpha := pos - (seg_index : ℚ)
  let direction : ℚ := if seg_index % 2 = 0 then 1 else -1
  (sx + alpha * params.total_distance,
   sy + direction * seg_alpha * params.y_amplitude, sz)

/-- `calculate_triangle_wave`: the computation after the phase has been
fixed. -/
def triangle_wave_body (M : PyMath) (alpha sx sy sz : ℚ)
    (params : MotionParams) (t : ℚ) : ℚ × ℚ × ℚ :=
  let tri := 1 - |2 * t - 1|
  (sx + alpha * params.total_distance,
   sy + (tri * 2 - 1) * params.y_amplitude * (5 / 10), sz)

/-- `calculate_triangle_wave`: phase `(alpha * y_frequency) % 1.0`, with
`1e-6` subtracted on the last frame. -/
def calculate_triangle_wave (M : PyMath) (alpha sx sy sz : ℚ)
    (frame_index num_frames : ℤ) (params : MotionParams) : ℚ × ℚ × ℚ :=
  let t := pyMod (alpha * params.y_frequency) 1
  let t := if frame_index = num_frames - 1 then t - seamEpsilon else t
  triangle_wave_body M alpha sx sy sz params t

/-- `calculate_ellipse`: the computation after the phase has been fixed. -/
def ellipse_body (M : PyMath) (alpha sx sy sz : ℚ) (params : MotionParams)
    (t : ℚ) : ℚ × ℚ × ℚ :=
  let rx := |params.total_distance| * (5 / 100)
  let ry := |params.y_amplitude|
  (sx + alpha * params.total_distance + rx * M.cos t,
   sy + ry * (6 / 10) * M.sin t, sz)

/-- `calculate_ellipse`. -/
def calculate_ellipse (M : PyMath) (alpha sx sy sz : ℚ)
    (frame_index num_frames : ℤ) (params : MotionParams) : ℚ × ℚ × ℚ :=
  let t := alpha * params.y_frequency * 2 * M.pi
  let t := if frame_index = num_frames - 1 then t - seamEpsilon else t
  ellipse_body M alpha sx sy sz params t

/-- `calculate_figure8`: the computation after the phase has been fixed. -/
def figure8_body (M : PyMath) (alpha sx sy sz : ℚ) (params : MotionParams)
    (t : ℚ) : ℚ × ℚ × ℚ :=
  let a := params.y_amplitude * (5 / 10)
  let denom := 1 + M.sin t ^ 2
  let offset_x := a * M.sin t / denom
  let offset_y := a * M.sin t * M.cos t / denom
  (sx + alpha * params.total_distance + offset_x, sy + offset_y, sz)

/-- `calculate_figure8`. -/
def calculate_figure8 (M : PyMath) (alpha sx sy sz : ℚ)
    (frame_index num_frames : ℤ) (params : MotionParams) : ℚ × ℚ × ℚ :=
  let t := alpha * params.y_frequency * 2 * M.pi
  let t := if frame_index = num_frames - 1 then t - seamEpsilon else t
  figure8_body M alpha sx sy sz params t

/-- `calculate_arc`: the computation after the phase has been fixed. -/
def arc_body (M : PyMath) (alpha sx sy sz : ℚ) (params : MotionParams)
    (t : ℚ) : ℚ × ℚ × ℚ :=
  (sx + alpha * params.total_distance,
   sy + params.y_amplitude * M.sin t, sz)

/-- `calculate_arc`: phase `alpha * pi`, with `1e-6` subtracted on the
last frame. -/
def calculate_arc (M : PyMath) (alpha sx sy sz : ℚ)
    (frame_index num_frames : ℤ) (params : MotionParams) : ℚ × ℚ × ℚ :=
  let t := alpha * M.pi
  let t := if frame_index = num_frames - 1 then t - seamEpsilon else t
  arc_body M alpha sx sy sz params t

/-- `calculate_bounce`: the computation after the phase has been fixed. -/
def bounce_body (M : PyMath) (alpha sx sy sz : ℚ) (params : MotionParams)
    (t : ℚ) : ℚ × ℚ × ℚ :=
  let decay := 1 - (3 / 10) * alpha
  (sx + alpha * params.total_distance,
   sy + decay * params.y_amplitude * |M.sin t|, sz)

/-- `calculate_bounce`: phase `alpha * y_frequency * pi`, with `1e-6`
subtracted on the last frame. -/
def calculate_bounce (M : PyMath) (alpha sx sy sz : ℚ)
    (frame_index num_frames : ℤ) (params : MotionParams) : ℚ × ℚ × ℚ :=
  let t := alpha * params.y_frequency * M.pi
  let t := if frame_index = num_frames - 1 then t - seamEpsilon else t
  bounce_body M alpha sx sy sz params t

/-- `calculate_sawtooth`: the computation after the phase has been fixed. -/
def sawtooth_body (M : PyMath) (alpha sx sy sz : ℚ) (params : MotionParams)
    (t : ℚ) : ℚ × ℚ × ℚ :=
  (sx + alpha * params.total_distance,
   sy + (t * 2 - 1) * params.y_amplitude * (5 / 10), sz)

/-- `calculate_sawtooth`: phase `(alpha * y_frequency) % 1.0`, with
`1e-6` subtracted on the last frame. -/
def calculate_sawtooth (M : PyMath) (alpha sx sy sz : ℚ)
    (frame_index num_frames : ℤ) (params : MotionParams) : ℚ × ℚ × ℚ :=
  let t := pyMod (alpha * params.y_frequency) 1
  let t := if frame_index = num_frames - 1 then t - seamEpsilon else t
  sawtooth_body M alpha sx sy sz params t

/-- `calculate_serpentine`: the computation after the phase has been
fixed. -/
def serpentine_body (M : PyMath) (alpha sx sy sz : ℚ)
    (params : MotionParams) (t : ℚ) : ℚ × ℚ × ℚ :=
  (sx + alpha * params.total_distance,
   sy + params.y_amplitude * (M.sin t * (7 / 10) + M.sin (t * (5 / 10)) * (3 / 10)),
   sz)

/-- `calculate_serpentine`. -/
def calculate_serpentine (M : PyMath) (alpha sx sy sz : ℚ)
    (frame_index num_frames : ℤ) (params : MotionParams) : ℚ × ℚ × ℚ :=
  let t := alpha * params.y_frequency * 2 * M.pi
  let t := if frame_index = num_frames - 1 then t - seamEpsilon else t
  serpentine_body M alpha sx sy sz params t

/-- `calculate_lissajous`: the computation after the phase has been
fixed. -/
def lissajous_body (M : PyMath) (alpha sx sy sz : ℚ)
    (params : MotionParams) (t : ℚ) : ℚ × ℚ × ℚ :=
  let a := params.y_frequency
  let b := params.y_frequency * (15 / 10)
  (sx + alpha * params.total_distance + params.y_amplitude * (3 / 10) * M.sin (a * t),
   sy + params.y_amplitude * M.sin (b * t + M.pi / 2), sz)

/-- `calculate_lissajous`: phase `alpha * 2 * pi`, with `1e-6` subtracted
on the last frame. -/
def calculate_lissajous (M : PyMath) (alpha sx sy sz : ℚ)
    (frame_index num_frames : ℤ) (params : MotionParams) : ℚ × ℚ × ℚ :=
  let t := alpha * 2 * M.pi
  let t := if frame_index = num_frames - 1 then t - seamEpsilon else t
  lissajous_body M alpha sx sy sz params t

/-- `calculate_pendulum`: the computation after the phase has been fixed. -/
def pendulum_body (M : PyMath) (alpha sx sy sz : ℚ) (params : MotionParams)
    (t : ℚ) : ℚ × ℚ × ℚ :=
  let envelope := 1 - (5 / 10) * |2 * alpha - 1|
  (sx + alpha * params.total_distance,
   sy + envelope * params.y_amplitude * M.sin t, sz)

/-- `calculate_pendulum`. -/
def calculate_pendulum (M : PyMath) (alpha sx sy sz : ℚ)
    (frame_index num_frames : ℤ) (params : MotionParams) : ℚ × ℚ × ℚ :=
  let t := alpha * params.y_frequency * 2 * M.pi
  let t := if frame_index = num_frames - 1 then t - seamEpsilon else t
  pendulum_body M alpha sx sy sz params t

/-- `calculate_expand_circle`: the computation after the phase has been
fixed. -/
def expand_circle_body (M : PyMath) (alpha sx sy sz : ℚ)
    (params : MotionParams) (t : ℚ) : ℚ × ℚ × ℚ :=
  let r := params.y_amplitude * ((5 / 10) + (5 / 10) * M.sin (alpha * M.pi))
  let center_x := sx + alpha * params.total_distance
  (center_x + r * M.cos t, sy + r * M.sin t, sz)

/-- `calculate_expand_circle`. -/
def calculate_expand_circle (M : PyMath) (alpha sx sy sz : ℚ)
    (frame_index num_frames : ℤ) (params : MotionParams) : ℚ × ℚ × ℚ :=
  let t := alpha * params.y_frequency * 2 * M.pi
  let t := if frame_index = num_frames - 1 then t - seamEpsilon else t
  expand_circle_body M alpha sx sy sz params t

/-- `calculate_rectangle_loop`: the computation after the phase `p` has
been fixed. -/
def rectangle_loop_body (M : PyMath) (alpha sx sy sz : ℚ)
    (params : MotionParams) (p : ℚ) : ℚ × ℚ × ℚ :=
  let width := |params.total_distance| * (1 / 10)
  let height := params.y_amplitude
  let base_x := sx + alpha * params.total_distance
  let xy : ℚ × ℚ :=
    if p < 1 / 4 then
      let k := p / (1 / 4)
      (base_x - width / 2, sy + k * height)
    else if p < 1 / 2 then
      let k := (p - 1 / 4) / (1 / 4)
      (base_x - width / 2 + k * width, sy + height)
    else if p < 3 / 4 then
      let k := (p - 1 / 2) / (1 / 4)
      (base_x + width / 2, sy + height * (1 - k))
    else
      let k := (p - 3 / 4) / (1 / 4)
      (base_x + width / 2 - k * width, sy)
  (xy.1, xy.2, sz)

/-- `calculate_rectangle_loop`: phase `(alpha * loops) % 1.0` with
`loops = max 1 (int y_frequency)`, `1e-6` subtracted on the last frame. -/
def calculate_rectangle_loop (M : PyMath) (alpha sx sy sz : ℚ)
    (frame_index num_frames : ℤ) (params : MotionParams) : ℚ × ℚ × ℚ :=
  let loops : ℤ := max 1 (pyInt params.y_frequency)
  let p := pyMod (alpha * (loops : ℚ)) 1
  let p := if frame_index = num_frames - 1 then p - seamEpsilon else p
  rectangle_loop_body M alpha sx sy sz params p

/-- `calculate_diamond`: the computation after the phase `p` has been
fixed. -/
def diamond_body (M : PyMath) (alpha sx sy sz : ℚ) (params : MotionParams)
    (p : ℚ) : ℚ × ℚ × ℚ :=
  let height := params.y_amplitude
  let width := |params.total_distance| * (8 / 100)
  let center_x := sx + alpha * params.total_distance
  let xy : ℚ × ℚ :=
    if p < 1 / 4 then
      let k := p / (1 / 4)
      (center_x, sy + k * height)
    else if p < 1 / 2 then
      let k := (p - 1 / 4) / (1 / 4)
      (center_x + k * width, sy + height * (1 - k))
    else if p < 3 / 4 then
      let k := (p - 1 / 2) / (1 / 4)
      (center_x + width * (1 - k), sy - k * height)
    else
      let k := (p - 3 / 4) / (1 / 4)
      (center_x - k * width, sy - height * (1 - k))
  (xy.1, xy.2, sz)

/-- `calculate_diamond`: phase `(alpha * y_frequency) % 1.0`, with `1e-6`
subtracted on the last frame. -/
def calculate_diamond (M : PyMath) (alpha sx sy sz : ℚ)
    (frame_index num_frames : ℤ) (params : MotionParams) : ℚ × ℚ × ℚ :=
  let p := pyMod (alpha * params.y_frequency) 1
  let p := if frame_index = num_frames - 1 then p - seamEpsilon else p
  diamond_body M alpha sx sy sz params p

/-- `calculate_infinity_horizontal`: the computation after the phase has
been fixed. -/
def infinity_horizontal_body (M : PyMath) (alpha sx sy sz : ℚ)
    (params : MotionParams) (t : ℚ) : ℚ × ℚ × ℚ :=
  let a := params.y_amplitude * (5 / 10)
  (sx + alpha * params.total_distance + a * M.sin t,
   sy + a * M.sin t * M.cos t, sz)

/-- `calculate_infinity_horizontal`. -/
def calculate_infinity_horizontal (M : PyMath) (alpha sx sy sz : ℚ)
    (frame_index num_frames : ℤ) (params : MotionParams) : ℚ × ℚ × ℚ :=
  let t := alpha * params.y_frequency * 2 * M.pi
  let t := if frame_index = num_frames - 1 then t - seamEpsilon else t
  infinity_horizontal_body M alpha sx sy sz params t

/-- `calculate_random_walk`: the computation after the phase has been
fixed. -/
def random_walk_body (M : PyMath) (alpha sx sy sz : ℚ)
    (params : MotionParams) (t : ℚ) : ℚ × ℚ × ℚ :=
  let jitter_x := params.y_amplitude * (2 / 10) *
    (M.sin (7 * t) + M.sin ((53 / 10) * t) * (5 / 10))
  let jitter_y := params.y_amplitude * (6 / 10) *
    (M.sin ((31 / 10) * t) + (5 / 10) * M.sin (9 * t))
  (sx + alpha * params.total_distance + jitter_x,
   sy + max (-params.y_amplitude) (min params.y_amplitude jitter_y), sz)

/-- `calculate_random_walk`. -/
def calculate_random_walk (M : PyMath) (alpha sx sy sz : ℚ)
    (frame_index num_frames : ℤ) (params : MotionParams) : ℚ × ℚ × ℚ :=
  let t := alpha * params.y_frequency * 2 * M.pi
  let t := if frame_index = num_frames - 1 then t - seamEpsilon else t
  random_walk_body M alpha sx sy sz params t

/-- `calculate_static_rotation`: position unchanged. -/
def calculate_static_rotation (M : PyMath) (alpha sx sy sz : ℚ)
    (frame_index num_frames : ℤ) (params : MotionParams) : ℚ × ℚ × ℚ :=
  (sx, sy, sz)

/-- `calculate_linear`: straight-line motion (the dispatcher's default). -/
def calculate_linear (M : PyMath) (alpha sx sy sz : ℚ)
    (frame_index num_frames : ℤ) (params : MotionParams) : ℚ × ℚ × ℚ :=
  (sx + alpha * params.total_distance, sy, sz)

/-- The common type of all motion calculators. -/
abbrev MotionCalc :=
  PyMath → ℚ → ℚ → ℚ → ℚ → ℤ → ℤ → MotionParams → ℚ × ℚ × ℚ

/-- The `MOTION_CALCULATORS` registry of `motion_patterns.py`, as an
association list in the declared order. -/
def MOTION_CALCULATORS : List (String × MotionCalc) :=
  [("sine_wave", calculate_sine_wave),
   ("z_shape", calculate_z_shape),
   ("circle", calculate_circle),
   ("spiral", calculate_spiral),
   ("square_wave", calculate_square_wave),
   ("zigzag", calculate_zigzag),
   ("triangle_wave", calculate_triangle_wave),
   ("ellipse", calculate_ellipse),
   ("figure8", calculate_figure8),
   ("arc", calculate_arc),
   ("bounce", calculate_bounce),
   ("sawtooth", calculate_sawtooth),
   ("serpentine", calculate_serpentine),
   ("lissajous", calculate_lissajous),
   ("pendulum", calculate_pendulum),
   ("expand_circle", calculate_expand_circle),
   ("rectangle_loop", calculate_rectangle_loop),
   ("diamond", calculate_diamond),
   ("infinity_horizontal", calculate_infinity_horizontal),
   ("random_walk", calculate_random_walk),
   ("static_rotation", calculate_static_rotation),
   ("linear", calculate_linear)]

/-- `get_position_for_motion`: dictionary lookup with `calculate_linear`
as the default for unknown motion-type strings. -/
def get_position_for_motion (M : PyMath) (motion_type : String)
    (alpha start_x start_y start_z : ℚ) (frame_index num_frames : ℤ)
    (motion_params : MotionParams) : ℚ × ℚ × ℚ :=
  let calculator := (MOTION_CALCULATORS.lookup motion_type).getD calculate_linear
  calculator M alpha start_x start_y start_z frame_index num_frames motion_params

/-- The character for a decimal digit, as produced by Python's decimal
formatting. -/
def digitChar (d : ℕ) : Char := Char.ofNat (48 + d)

/-- The little-endian decimal digit list of `n`, zero-padded (at the
most-significant end, i.e. appended in little-endian order) to at least
four digits: the digit content of Python's `f"{n:04d}"`. -/
def paddedDigitsLE (n : ℕ) : List ℕ :=
  Nat.digits 10 n ++ List.replicate (4 - (Nat.digits 10 n).length) 0

/-- The character list of Python's `f"{n:04d}"`. -/
def frameFilenameChars (n : ℕ) : List Char :=
  (paddedDigitsLE n).reverse.map digitChar

/-- The screenshot filename `f"frame_{frame_index:04d}.png"` built in
`AnimationRenderer._take_screenshot_and_collect_data`.  The frame index
is a Python int that is always nonnegative at this call site. -/
def frameFilename (i : ℤ) : String :=
  String.mk ("frame_".data ++ frameFilenameChars i.toNat ++ ".png".data)

/-- A 3-component vector of (exact) scalars, modelling `unreal.Vector`. -/
structure Vec3 where
  x : ℚ
  y : ℚ
  z : ℚ
deriving DecidableEq

/-- Euler angles, modelling `unreal.Rotator`. -/
structure Rot where
  pitch : ℚ
  yaw : ℚ
  roll : ℚ
deriving DecidableEq

/-- One entry of `AnimationRenderer.frame_data` (the `data_entry` dict of
`_take_screenshot_and_collect_data`). -/
structure FrameRecord where
  frame_index : ℤ
  timestamp : ℚ
  translation : Vec3
  euler_angles : Rot
  displacement : Vec3
  displacement_magnitude : ℚ
  image_filename : String
deriving DecidableEq

/-- The `camera_config` dict handed to `AnimationRenderer` (keys read
with `.get` and defaults in `_export_frame_data_to_json`). -/
structure CameraConfig where
  location : Option Vec3
  rotation : Option Rot
  fov : Option ℚ
deriving DecidableEq

/-- The `camera` object of the exported `frustum_data.json`. -/
structure CameraData where
  position : Vec3
  rotation : Rot
  fov_vertical : ℚ
  aspect : ℚ
  near_clip : ℚ
  far_clip : ℚ
deriving DecidableEq

/-- `_export_frame_data_to_json`, camera part: missing keys default to
zero, missing fov defaults to `90.0`; fixed aspect `720/480`, near clip
`10`, far clip `10000`. -/
def buildCameraData (cfg : Option CameraConfig) : CameraData :=
  match cfg with
  | none =>
      { position := ⟨0, 0, 0⟩, rotation := ⟨0, 0, 0⟩, fov_vertical := 90,
        aspect := 720 / 480, near_clip := 10, far_clip := 10000 }
  | some c =>
      { position := c.location.getD ⟨0, 0, 0⟩,
        rotation := c.rotation.getD ⟨0, 0, 0⟩,
        fov_vertical := c.fov.getD 90,
        aspect := 720 / 480, near_clip := 10, far_clip := 10000 }

/-- One entry of the `frames` array of the exported `frustum_data.json`
(note: it carries no image filename, only `frame_id`, position and
rotation). -/
structure ExportFrame where
  frame_id : ℤ
  position : Vec3
  rotation : Rot
deriving DecidableEq

/-- `_export_frame_data_to_json`, frames part: each remaining
`FrameRecord` is serialized as its index, position and rotation. -/
def exportFrames (records : List FrameRecord) : List ExportFrame :=
  records.map fun r =>
    { frame_id := r.frame_index, position := r.translation,
      rotation := r.euler_angles }

/-- The constructor parameters of `AnimationRenderer.__init__` that are
relevant to its behaviour. -/
structure AnimParams where
  has_finished_callback : Bool
  num_frames : ℤ
  prune_last_frame : Bool
  total_distance : ℚ
  total_rotation : ℚ
  y_amplitude : ℚ
  y_frequency : ℚ
  motion_type : String
  target_scale : Vec3
  camera_config : Option CameraConfig

/-- The external world one `AnimationRenderer` run interacts with: the
math library, whether an actor with the requested label exists, the
actor's starting pose, whether the pruned screenshot file is visible on
disk at each poll tick, whether `os.remove` succeeds, and whether the
JSON export write succeeds. -/
structure AnimEnv where
  pymath : PyMath
  actor_exists : Bool
  start_position : Vec3
  start_rotation : Rot
  file_exists : ℕ → Bool
  delete_ok : Bool
  export_ok : Bool

/-- `alpha` as computed in `_move_actor_and_schedule_screenshot`:
`frame_index / (num_frames - 1) if num_frames > 1 else 0.0`. -/
def alphaAt (num_frames frame_index : ℤ) : ℚ :=
  if 1 < num_frames then (frame_index : ℚ) / ((num_frames : ℚ) - 1) else 0

/-- The pose applied to the actor on frame `i` by
`_move_actor_and_schedule_screenshot`: position from the motion pattern
dispatcher, yaw linearly interpolated, pitch and roll held at their
starting values. -/
def poseAt (env : AnimEnv) (p : AnimParams) (i : ℤ) : Vec3 × Rot :=
  let alpha := alphaAt p.num_frames i
  let pos3 := get_position_for_motion env.pymath p.motion_type alpha
    env.start_position.x env.start_position.y env.start_position.z
    i p.num_frames ⟨p.total_distance, p.y_amplitude, p.y_frequency⟩
  (⟨pos3.1, pos3.2.1, pos3.2.2⟩,
   ⟨env.start_rotation.pitch,
    env.start_rotation.yaw + alpha * p.total_rotation,
    env.start_rotation.roll⟩)

/-- The `FrameRecord` appended by `_take_screenshot_and_collect_data` on
frame `i`, where `prev` is `previous_position` (the pose read back after
the tick equals the pose applied before it). -/
def mkRecord (env : AnimEnv) (p : AnimParams) (i : ℤ) (prev : Vec3) :
    FrameRecord :=
  let pose := poseAt env p i
  let pos := pose.1
  let disp : Vec3 := ⟨pos.x - prev.x, pos.y - prev.y, pos.z - prev.z⟩
  { frame_index := i
    timestamp := (i : ℚ) / ((max 1 (p.num_frames - 1) : ℤ) : ℚ)
    translation := pos
    euler_angles := pose.2
    displacement := disp
    displacement_magnitude := env.pymath.sqrt (disp.x ^ 2 + disp.y ^ 2 + disp.z ^ 2)
    image_filename := frameFilename i }

/-- The move/capture tick loop of `AnimationRenderer`
(`_move_actor_and_schedule_screenshot` / `_take_screenshot_and_collect_data`):
the body runs once unconditionally for the current frame, then repeats
while `frame_index < num_frames` after the increment.  Returns the list
of poses applied to the actor and the accumulated `frame_data`. -/
def animLoop (env : AnimEnv) (p : AnimParams) (i : ℤ) (prev : Vec3) :
    List (Vec3 × Rot) × List FrameRecord :=
  let pose := poseAt env p i
  let fr := mkRecord env p i prev
  if h : i + 1 < p.num_frames then
    let rest := animLoop env p (i + 1) pose.1
    (pose :: rest.1, fr :: rest.2)
  else
    ([pose], [fr])
termination_by (p.num_frames - i).toNat
decreasing_by omega

/-- `if self.on_finished_callback: self.on_finished_callback()` — the
number of continuation invocations performed by one such guarded call. -/
def callbackCalls (has_cb : Bool) : ℕ := if has_cb then 1 else 0

/-- How the prune-deletion polling ended. -/
inductive PruneResult
  | notPruned
  | deleted (attempts : ℕ)
  | deleteFailed (attempts : ℕ)
  | timedOut (attempts : ℕ)
deriving DecidableEq

/-- What one terminal arm of `_schedule_delete_last_frame`'s `_poll` (or
the poll loop as a whole) produced: the prune outcome, the number of poll
ticks executed, and the export/continuation effects performed on the way
out. -/
structure PollOutcome where
  prune_result : PruneResult
  polls : ℕ
  export_attempted : Bool
  finished_calls : ℕ
deriving DecidableEq

/-- The `_poll` tick callback of `_schedule_delete_last_frame`: once per
tick, check whether the pruned screenshot file exists; if so delete it
(a deletion error is caught and logged) and fall through to export and
the finished callback; otherwise increment the attempt counter, and give
up (still exporting and invoking the callback) once it exceeds 60. -/
def pollDelete (env : AnimEnv) (has_cb : Bool) (attempts : ℕ) : PollOutcome :=
  if env.file_exists attempts then
    { prune_result := if env.delete_ok then .deleted attempts else .deleteFailed attempts
      polls := 1
      export_attempted := true
      finished_calls := callbackCalls has_cb }
  else
    if h : 60 < attempts + 1 then
      { prune_result := .timedOut (attempts + 1)
        polls := 1
        export_attempted := true
        finished_calls := callbackCalls has_cb }
    else
      let rest := pollDelete env has_cb (attempts + 1)
      { rest with polls := rest.polls + 1 }
termination_by 60 - attempts
decreasing_by omega

/-- The observable result of one full `AnimationRenderer` run. -/
structure AnimResult where
  finished_calls : ℕ
  dir_created : Bool
  scale_applied : Bool
  moves : List (Vec3 × Rot)
  frame_data : List FrameRecord
  pruned : Option FrameRecord
  frames_to_save : List FrameRecord
  export_attempted : Bool
  exported : Option (CameraData × List ExportFrame)
  prune_result : PruneResult
  poll_ticks : ℕ

/-- One full `AnimationRenderer` run, from `start()` to the invocation of
`on_finished_callback`: actor lookup (failing fast when absent), scale
application, output-directory creation, the per-frame move/capture loop,
`_finalize_and_prune` (popping the last record and polling for its file
when pruning applies), `_export_frame_data_to_json`, and the guarded
finished callback. -/
def animRun (env : AnimEnv) (p : AnimParams) : AnimResult :=
  if env.actor_exists = false then
    { finished_calls := callbackCalls p.has_finished_callback
      dir_created := false, scale_applied := false, moves := []
      frame_data := [], pruned := none, frames_to_save := []
      export_attempted := false, exported := none
      prune_result := .notPruned, poll_ticks := 0 }
  else
    let lp := animLoop env p 0 env.start_position
    let records := lp.2
    if p.prune_last_frame = true ∧ 1 < records.length then
      let remaining := records.dropLast
      let po := pollDelete env p.has_finished_callback 0
      { finished_calls := po.finished_calls
        dir_created := true, scale_applied := true, moves := lp.1
        frame_data := records, pruned := records.getLast?
        frames_to_save := remaining
        export_attempted := po.export_attempted
        exported := if env.export_ok then
          some (buildCameraData p.camera_config, exportFrames remaining) else none
        prune_result := po.prune_result, poll_ticks := po.polls }
    else
      { finished_calls := callbackCalls p.has_finished_callback
        dir_created := true, scale_applied := true, moves := lp.1
        frame_data := records, pruned := none
        frames_to_save := records
        export_attempted := true
        exported := if env.export_ok then
          some (buildCameraData p.camera_config, exportFrames records) else none
        prune_result := .notPruned, poll_ticks := 0 }

/-- One asset block of the batch configuration (`assets` entries of a
`hdri_scenes` element): a display label, an asset path and the ordered
list of motion-pattern names to run. -/
structure AssetConfig where
  label : String
  path : String
  motions : List String
deriving DecidableEq

/-- The per-scene `motion_config` block of the batch configuration. -/
structure MotionConfigData where
  num_frames : ℤ
  total_distance : ℚ
  total_rotation : ℚ
  y_amplitude : ℚ
  y_frequency : ℚ
  initial_location : Vec3
  initial_rotation : Rot
deriving DecidableEq

/-- One `hdri_scenes` element of the batch configuration. -/
structure HdriConfig where
  name : String
  map_path : String
  hdri_path : String
  camera_config : Option CameraConfig
  motion_config : MotionConfigData
  assets : List AssetConfig
deriving DecidableEq

/-- The engine-side oracles the `ComprehensiveRenderer` interacts with:
whether `load_map` succeeds, whether `_setup_hdri_backdrop` succeeds for
the scene at each index, and whether `_spawn_actor` succeeds for the leaf
at each `(scene, asset, motion)` index triple. -/
structure BatchEnv where
  mapLoadOk : Bool
  setupOk : ℕ → Bool
  spawnOk : ℕ → ℕ → ℕ → Bool

/-- The externally observable actions of one batch run, in order. -/
inductive BatchEvent
  | mapLoad (map_path : String)
  | cleanupScene (hdri_name : String)
  | backdropSetup (hdri_name : String) (ok : Bool)
  | cameraSetup (hdri_name : String)
  | cleanupActors (hdri_name : String)
  | spawnAttempt (hdri_name asset_label motion_type : String) (ok : Bool)
  | renderJob (hdri_name asset_label motion_type : String)
  | batchComplete
deriving DecidableEq

/-- `_process_next_motion`, iterated over the remaining motions of the
current asset (indices `h`, `a`, `m` mirror `current_hdri_index`,
`current_asset_index`, `current_motion_index`).  For each motion: clean
up old actors, attempt the spawn; on failure log and advance to the next
motion, on success run the animation job — whose finished callback
advances to the next motion either way. -/
def runMotions (env : BatchEnv) (h a : ℕ) (hdri_name asset_label : String) :
    ℕ → List String → List BatchEvent
  | _, [] => []
  | m, motion_type :: rest =>
      (.cleanupActors hdri_name ::
       .spawnAttempt hdri_name asset_label motion_type (env.spawnOk h a m) ::
       (if env.spawnOk h a m then
          [.renderJob hdri_name asset_label motion_type] else []))
      ++ runMotions env h a hdri_name asset_label (m + 1) rest

/-- `_process_next_asset`, iterated over the remaining assets of the
current scene: for each asset, reset the motion index to 0 and process
its motions; when exhausted, control returns to the scene loop. -/
def runAssets (env : BatchEnv) (h : ℕ) (hdri_name : String) :
    ℕ → List AssetConfig → List BatchEvent
  | _, [] => []
  | a, asset :: rest =>
      runMotions env h a hdri_name asset.label 0 asset.motions
      ++ runAssets env h hdri_name (a + 1) rest

/-- `_process_next_hdri`, iterated over the remaining scenes (`prev` is
the name of the previously processed scene, cleaned up before setting up
the current one).  On backdrop-setup failure the whole scene is skipped;
on success the camera is positioned (when a camera config is present)
and the scene's assets are processed.  When the scene list is exhausted
the completion banner is logged and no further callbacks are scheduled. -/
def runScenes (env : BatchEnv) : ℕ → Option String → List HdriConfig →
    List BatchEvent
  | _, _, [] => [.batchComplete]
  | h, prev, scene :: rest =>
      (match prev with | some q => [.cleanupScene q] | none => [])
      ++ .backdropSetup scene.name (env.setupOk h) ::
      (if env.setupOk h then
        (match scene.camera_config with
         | some _ => [.cameraSetup scene.name] | none => [])
        ++ runAssets env h scene.name 0 scene.assets
        ++ runScenes env (h + 1) (some scene.name) rest
      else
        runScenes env (h + 1) (some scene.name) rest)

/-- `ComprehensiveRenderer.start`: with a nonempty configuration, load
the map of the first scene; if loading succeeds the map-loaded tick
callback enters the scene loop at index 0, otherwise only an error is
logged. -/
def comprehensiveStart (env : BatchEnv) (hdri_configs : List HdriConfig) :
    List BatchEvent :=
  match hdri_configs with
  | [] => []
  | c :: rest =>
      .mapLoad c.map_path ::
      (if env.mapLoadOk then runScenes env 0 none (c :: rest) else [])

/-- The `__main__` entry point of `render.py`: abort with an error (and
do nothing else) when the loaded configuration has no scenes or an empty
output directory; otherwise start the batch renderer. -/
def mainRun (env : BatchEnv) (hdri_configs : List HdriConfig)
    (output_directory : String) : List BatchEvent :=
  if hdri_configs = [] ∨ output_directory = "" then []
  else comprehensiveStart env hdri_configs

/-- The `(scene, asset, motion)` leaf a batch event visits, if it is the
spawn attempt that `_process_next_motion` performs exactly once per
leaf. -/
def leafOfEvent : BatchEvent → Option (String × String × String)
  | .spawnAttempt s a m _ => some (s, a, m)
  | _ => none

/-- The sequence of leaves visited by a batch run, in order. -/
def visitedLeaves (events : List BatchEvent) : List (String × String × String) :=
  events.filterMap leafOfEvent

/-- The `(scene, asset, motion)` triples declared by a configuration, in
declared order (the reference enumeration the sequencer should realise). -/
def declaredLeaves (hdri_configs : List HdriConfig) :
    List (String × String × String) :=
  hdri_configs.flatMap fun s =>
    s.assets.flatMap fun a => a.motions.map fun m => (s.name, a.label, m)

/-- The square-wave calculator as the specification's epsilon policy
would have it: the internal phase `alpha * 4` has `1e-6` subtracted on
the last frame before the segment index and segment fraction are
derived.  Comparison definition following the spec's words — the
source's `calculate_square_wave` performs no such adjustment. -/
def square_wave_spec_epsilon (M : PyMath) (alpha sx sy sz : ℚ)
    (frame_index num_frames : ℤ) (params : MotionParams) : ℚ × ℚ × ℚ :=
  let phase := alpha * 4
  let phase := if frame_index = num_frames - 1 then phase - seamEpsilon else phase
  let segment := pyInt phase
  let segment_alpha := pyMod phase 1
  let current_x := sx + alpha * params.total_distance
  let current_y :=
    if segment % 2 = 0 then sy + params.y_amplitude * segment_alpha
    else sy + params.y_amplitude * (1 - segment_alpha)
  (current_x, current_y, sz)

/-- A concrete stand-in math library for witness evaluations. -/
def pymathW : PyMath := ⟨fun _ => 0, fun _ => 0, 0, fun q => q⟩

/-- A concrete animator environment for witness evaluations. -/
def envW : AnimEnv :=
  { pymath := pymathW, actor_exists := true, start_position := ⟨0, 0, 0⟩,
    start_rotation := ⟨0, 0, 0⟩, file_exists := fun _ => false,
    delete_ok := true, export_ok := true }

/-- Concrete animator parameters for witness evaluations. -/
def paramsW : AnimParams :=
  { has_finished_callback := true, num_frames := 3, prune_last_frame := true,
    total_distance := 500, total_rotation := 360, y_amplitude := 100,
    y_frequency := 2, motion_type := "linear", target_scale := ⟨1, 1, 1⟩,
    camera_config := none }

/-- A concrete batch environment for witness evaluations; the spawn of
every second motion of each asset fails. -/
def batchEnvW : BatchEnv :=
  { mapLoadOk := true, setupOk := fun _ => true,
    spawnOk := fun _ _ m => m != 1 }

/-- A concrete per-scene motion configuration for witness evaluations. -/
def motionCfgW : MotionConfigData :=
  { num_frames := 3, total_distance := 500, total_rotation := 360,
    y_amplitude := 100, y_frequency := 2, initial_location := ⟨0, 0, 0⟩,
    initial_rotation := ⟨0, 0, 0⟩ }

/-- A concrete two-scene batch configuration for witness evaluations. -/
def hdriConfigsW : List HdriConfig :=
  [{ name := "HDRI_A", map_path := "/Game/MapA", hdri_path := "/Game/HdriA",
     camera_config := none, motion_config := motionCfgW,
     assets := [{ label := "Cube", path := "/Game/Cube",
                  motions := ["sine_wave", "circle"] },
                { label := "Cone", path := "/Game/Cone",
                  motions := ["zigzag"] }] },
   { name := "HDRI_B", map_path := "/Game/MapB", hdri_path := "/Game/HdriB",
     camera_config := some { location := some ⟨10, 0, 50⟩,
                             rotation := some ⟨0, 90, 0⟩, fov := some 90 },
     motion_config := motionCfgW,
     assets := [{ label := "Ball", path := "/Game/Ball",
                  motions := ["linear", "spiral"] }] }]

/-- `Nat.ofDigits` of a run of zero digits is zero. -/
theorem ofDigits_replicate_zero (b : ℕ) : ∀ k, Nat.ofDigits b (List.replicate k 0) = 0 := by
  intro k
  induction k with
  | zero => simp [Nat.ofDigits]
  | succ k ih => simp [List.replicate_succ, Nat.ofDigits_cons, ih]

/-- The zero-padded digit list of `n` still decodes to `n`. -/
theorem paddedDigitsLE_decode (n : ℕ) : Nat.ofDigits 10 (paddedDigitsLE n) = n := by
  unfold paddedDigitsLE
  rw [Nat.ofDigits_append, Nat.ofDigits_digits, ofDigits_replicate_zero]
  simp

/-- Every entry of the padded digit list is a decimal digit. -/
theorem paddedDigitsLE_lt (n : ℕ) : ∀ d ∈ paddedDigitsLE n, d < 10 := by
  intro d hd
  unfold paddedDigitsLE at hd
  rcases List.mem_append.1 hd with h | h
  · exact Nat.digits_lt_base (by norm_num) h
  · rw [List.eq_of_mem_replicate h]; norm_num

/-- `digitChar` is injective on decimal digits. -/
theorem digitChar_injOn : ∀ a, a < 10 → ∀ b, b < 10 → digitChar a = digitChar b → a = b := by
  decide

/-- Mapping `digitChar` over digit lists is injective. -/
theorem map_digitChar_inj : ∀ (l1 l2 : List ℕ), (∀ x ∈ l1, x < 10) →
    (∀ x ∈ l2, x < 10) → l1.map digitChar = l2.map digitChar → l1 = l2 := by
  intro l1
  induction l1 with
  | nil => intro l2 _ _ h; cases l2 <;> simp_all
  | cons a t ih =>
    intro l2 h1 h2 h
    cases l2 with
    | nil => simp_all
    | cons b t2 =>
      simp only [List.map_cons, List.cons.injEq] at h
      have ha := h1 a (by simp)
      have hb := h2 b (by simp)
      have := digitChar_injOn a ha b hb h.1
      subst this
      have := ih t2 (fun x hx => h1 x (by simp [hx])) (fun x hx => h2 x (by simp [hx])) h.2
      rw [this]

/-- Distinct nonnegative frame indices get distinct screenshot
filenames. -/
theorem frameFilename_inj {a b : ℤ} (ha : 0 ≤ a) (hb : 0 ≤ b)
    (h : frameFilename a = frameFilename b) : a = b := by
  unfold frameFilename at h
  have h2 := congrArg String.data h
  simp only [String.data] at h2
  have h3 := List.append_cancel_left (List.append_cancel_right h2)
  unfold frameFilenameChars at h3
  have h4 := map_digitChar_inj _ _
    (fun x hx => paddedDigitsLE_lt _ x (List.mem_reverse.1 hx))
    (fun x hx => paddedDigitsLE_lt _ x (List.mem_reverse.1 hx)) h3
  have h5 := List.reverse_inj.1 h4
  have h6 := congrArg (Nat.ofDigits 10) h5
  rw [paddedDigitsLE_decode, paddedDigitsLE_decode] at h6
  omega

/-- Unfolding a map over `List.range (m + 1)` at the head. -/
theorem range_map_succ {α : Type} (f : ℕ → α) (m : ℕ) :
    (List.range (m + 1)).map f = f 0 :: (List.range m).map (fun k => f (k + 1)) := by
  rw [List.range_succ_eq_map, List.map_cons, List.map_map]
  refine congrArg _ (List.map_congr_left fun k _ => ?_)
  simp [Function.comp, Nat.succ_eq_add_one]

/-- Closed form of the move/capture loop: starting at frame `i` with
`previous_position = prev`, the loop applies the poses of frames
`i, i+1, ...` up to `num_frames - 1` (at least one frame) and appends
one record per frame, each record's previous position being the applied
position of the frame before it. -/
theorem animLoop_closed (env : AnimEnv) (p : AnimParams) :
    ∀ (n : ℕ) (i : ℤ) (prev : Vec3), (p.num_frames - i).toNat ≤ n →
    animLoop env p i prev =
      ((List.range ((p.num_frames - 1 - i).toNat + 1)).map
         (fun (k : ℕ) => poseAt env p (i + (k : ℤ))),
       (List.range ((p.num_frames - 1 - i).toNat + 1)).map
         (fun (k : ℕ) => mkRecord env p (i + (k : ℤ))
           (if k = 0 then prev else (poseAt env p (i + (k : ℤ) - 1)).1))) := by
  intro n
  induction n with
  | zero =>
    intro i prev hn
    have h1 : ¬ (i + 1 < p.num_frames) := by omega
    have h2 : (p.num_frames - 1 - i).toNat = 0 := by omega
    rw [animLoop, dif_neg h1, h2, range_map_succ, range_map_succ]
    simp
  | succ n ih =>
    intro i prev hn
    by_cases h : i + 1 < p.num_frames
    · rw [animLoop, dif_pos h, ih (i + 1) (poseAt env p i).1 (by omega)]
      have h2 : (p.num_frames - 1 - i).toNat + 1 = ((p.num_frames - 1 - (i + 1)).toNat + 1) + 1 := by
        omega
      rw [h2,
        range_map_succ (fun (k : ℕ) => poseAt env p (i + (k : ℤ)))
          ((p.num_frames - 1 - (i + 1)).toNat + 1),
        range_map_succ (fun (k : ℕ) => mkRecord env p (i + (k : ℤ))
            (if k = 0 then prev else (poseAt env p (i + (k : ℤ) - 1)).1))
          ((p.num_frames - 1 - (i + 1)).toNat + 1)]
      simp only [Prod.mk.injEq]
      refine ⟨?_, ?_⟩
      · congr 1
        · norm_num
        · refine List.map_congr_left fun k _ => ?_
          congr 1
          push_cast
          ring
      · congr 1
        · norm_num
        · refine List.map_congr_left fun k _ => ?_
          rw [if_neg (by omega : ¬(k + 1 = 0))]
          by_cases hk0 : k = 0
          · subst hk0
            rw [if_pos rfl]
            norm_num
          · rw [if_neg hk0]
            congr 1
            · push_cast; ring
            · congr 2
              push_cast; ring
    · have h2 : (p.num_frames - 1 - i).toNat = 0 := by omega
      rw [animLoop, dif_neg h, h2, range_map_succ, range_map_succ]
      simp

/-- The loop characterization instantiated at the start of a run. -/
theorem animLoop_zero (env : AnimEnv) (p : AnimParams) :
    animLoop env p 0 env.start_position =
      ((List.range ((p.num_frames - 1).toNat + 1)).map
         (fun (k : ℕ) => poseAt env p (k : ℤ)),
       (List.range ((p.num_frames - 1).toNat + 1)).map
         (fun (k : ℕ) => mkRecord env p (k : ℤ)
           (if k = 0 then env.start_position else (poseAt env p ((k : ℤ) - 1)).1))) := by
  have h := animLoop_closed env p (p.num_frames).toNat 0 env.start_position (by omega)
  simpa using h

/-- A captured record's stored index is the frame it was captured on. -/
theorem mkRecord_frame_index (env : AnimEnv) (p : AnimParams) (i : ℤ) (prev : Vec3) :
    (mkRecord env p i prev).frame_index = i := rfl

/-- A captured record's filename is the frame-indexed screenshot name. -/
theorem mkRecord_image_filename (env : AnimEnv) (p : AnimParams) (i : ℤ) (prev : Vec3) :
    (mkRecord env p i prev).image_filename = frameFilename i := rfl

/-- With the actor present, a run's `frame_data` and move trace are those
of the move/capture loop (whichever prune branch is taken). -/
theorem animRun_fields (env : AnimEnv) (p : AnimParams) (h : env.actor_exists = true) :
    (animRun env p).frame_data = (animLoop env p 0 env.start_position).2 ∧
    (animRun env p).moves = (animLoop env p 0 env.start_position).1 := by
  rw [animRun, if_neg (by simp [h])]
  dsimp only
  split
  · exact ⟨rfl, rfl⟩
  · exact ⟨rfl, rfl⟩

/-- With the actor present, a run captures `max (num_frames - 1) 0 + 1`
records. -/
theorem animRun_frame_data_length (env : AnimEnv) (p : AnimParams)
    (h : env.actor_exists = true) :
    (animRun env p).frame_data.length = (p.num_frames - 1).toNat + 1 := by
  rw [(animRun_fields env p h).1, animLoop_zero]
  simp

/-- Every terminal arm of the prune poll loop exports and performs the
guarded finished callback exactly once. -/
theorem pollDelete_exports (env : AnimEnv) (cb : Bool) :
    ∀ (n a : ℕ), 61 ≤ a + n →
    (pollDelete env cb a).finished_calls = callbackCalls cb ∧
    (pollDelete env cb a).export_attempted = true := by
  intro n
  induction n with
  | zero =>
    intro a ha
    rw [pollDelete]
    by_cases hf : env.file_exists a = true
    · rw [if_pos hf]; exact ⟨rfl, rfl⟩
    · rw [if_neg hf, dif_pos (by omega)]; exact ⟨rfl, rfl⟩
  | succ n ih =>
    intro a ha
    rw [pollDelete]
    by_cases hf : env.file_exists a = true
    · rw [if_pos hf]; exact ⟨rfl, rfl⟩
    · rw [if_neg hf]
      by_cases h60 : 60 < a + 1
      · rw [dif_pos h60]; exact ⟨rfl, rfl⟩
      · rw [dif_neg h60]
        have h2 := ih (a + 1) (by omega)
        exact ⟨h2.1, h2.2⟩

/-- When the pruned file never becomes visible, the poll loop runs
exactly `61 - attempts` further ticks and times out with the counter at
61, still exporting and invoking the callback. -/
theorem pollDelete_timeout (env : AnimEnv) (cb : Bool)
    (hfile : ∀ t, env.file_exists t = false) :
    ∀ (n a : ℕ), a + n = 61 → 1 ≤ n →
    pollDelete env cb a =
      ⟨.timedOut 61, n, true, callbackCalls cb⟩ := by
  intro n
  induction n with
  | zero => intro a h h1; omega
  | succ n ih =>
    intro a ha h1
    rw [pollDelete, if_neg (by simp [hfile a])]
    by_cases h60 : 60 < a + 1
    · have ha60 : a = 60 := by omega
      subst ha60
      have hn : n = 0 := by omega
      subst hn
      rw [dif_pos h60]
    · rw [dif_neg h60, ih (a + 1) (by omega) (by omega)]

/-- Visited leaves distribute over event-trace concatenation. -/
theorem visitedLeaves_append (l1 l2 : List BatchEvent) :
    visitedLeaves (l1 ++ l2) = visitedLeaves l1 ++ visitedLeaves l2 := by
  simp [visitedLeaves]

/-- The motion loop visits exactly the declared motions of the asset, in
order, whether or not each spawn succeeds. -/
theorem visitedLeaves_runMotions (env : BatchEnv) (h a : ℕ) (s al : String) :
    ∀ (m : ℕ) (motions : List String),
    visitedLeaves (runMotions env h a s al m motions) =
      motions.map (fun mo => (s, al, mo)) := by
  intro m motions
  induction motions generalizing m with
  | nil => rfl
  | cons mo rest ih =>
    have ih2 := ih (m + 1)
    simp only [visitedLeaves] at ih2 ⊢
    cases hs : env.spawnOk h a m <;>
      simp [runMotions, leafOfEvent, hs, ih2]

/-- The asset loop visits exactly the declared motions of each asset of
the scene, in order. -/
theorem visitedLeaves_runAssets (env : BatchEnv) (h : ℕ) (s : String) :
    ∀ (a : ℕ) (assets : List AssetConfig),
    visitedLeaves (runAssets env h s a assets) =
      assets.flatMap (fun asset => asset.motions.map (fun mo => (s, asset.label, mo))) := by
  intro a assets
  induction assets generalizing a with
  | nil => rfl
  | cons asset rest ih =>
    have ih2 := ih (a + 1)
    have hm := visitedLeaves_runMotions env h a s asset.label 0 asset.motions
    simp only [visitedLeaves] at ih2 hm ⊢
    simp [runAssets, hm, ih2]

/-- When every backdrop setup succeeds, the scene loop visits exactly
the declared leaves of the remaining scenes, in order. -/
theorem visitedLeaves_runScenes (env : BatchEnv)
    (hsetup : ∀ k, env.setupOk k = true) :
    ∀ (scenes : List HdriConfig) (h : ℕ) (prev : Option String),
    visitedLeaves (runScenes env h prev scenes) = declaredLeaves scenes := by
  intro scenes
  induction scenes with
  | nil => intro h prev; rfl
  | cons scene rest ih =>
    intro h prev
    have ih2 := ih (h + 1) (some scene.name)
    have ha := visitedLeaves_runAssets env h scene.name 0 scene.assets
    simp only [visitedLeaves] at ih2 ha ⊢
    cases prev <;> cases hc : scene.camera_config <;>
      simp [runScenes, hsetup h, hc, leafOfEvent, ha, ih2, declaredLeaves]

/-- C2: for every environment — normal success, actor-not-found at start,
prune-delete timeout, the pruned file appearing at any tick, a failing
delete, or a failing export — one Frame Animator run invokes the supplied
completion continuation exactly once. -/
theorem C2_on_finished_called_exactly_once (env : AnimEnv) (p : AnimParams)
    (hcb : p.has_finished_callback = true) :
    (animRun env p).finished_calls = 1 := by
  rw [animRun]
  by_cases hac : env.actor_exists = false
  · rw [if_pos hac]
    simp [callbackCalls, hcb]
  · rw [if_neg hac]
    dsimp only
    split
    · rw [hcb]
      have h := (pollDelete_exports env true 61 0 (by omega)).1
      simp [h, callbackCalls]
    · simp [callbackCalls, hcb]

/-- C2 witness: the concrete run (pruning enabled, file never appearing)
invokes the continuation exactly once. -/
theorem C2_witness : (animRun envW paramsW).finished_calls = 1 :=
  C2_on_finished_called_exactly_once envW paramsW rfl

/-- C5: when no actor with the given label exists at job start, the run
invokes the continuation immediately (exactly once), captures no frames,
appends no records, applies no scale or movement to any actor, creates no
output directory and performs no export. -/
theorem C5_actor_not_found_fails_fast (env : AnimEnv) (p : AnimParams)
    (hac : env.actor_exists = false) :
    (p.has_finished_callback = true → (animRun env p).finished_calls = 1) ∧
    (animRun env p).frame_data = [] ∧ (animRun env p).moves = [] ∧
    (animRun env p).dir_created = false ∧
    (animRun env p).scale_applied = false ∧
    (animRun env p).export_attempted = false ∧
    (animRun env p).exported = none := by
  rw [animRun, if_pos hac]
  exact ⟨fun hcb => by simp [callbackCalls, hcb], rfl, rfl, rfl, rfl, rfl, rfl⟩

/-- C5 witness: the fail-fast conclusion evaluated on a concrete
environment whose actor is absent. -/
theorem C5_witness :
    (paramsW.has_finished_callback = true →
      (animRun { envW with actor_exists := false } paramsW).finished_calls = 1) ∧
    (animRun { envW with actor_exists := false } paramsW).frame_data = [] ∧
    (animRun { envW with actor_exists := false } paramsW).moves = [] ∧
    (animRun { envW with actor_exists := false } paramsW).dir_created = false ∧
    (animRun { envW with actor_exists := false } paramsW).scale_applied = false ∧
    (animRun { envW with actor_exists := false } paramsW).export_attempted = false ∧
    (animRun { envW with actor_exists := false } paramsW).exported = none :=
  C5_actor_not_found_fails_fast { envW with actor_exists := false } paramsW rfl

/-- C4: when the pruned screenshot file never appears, the prune poll
loop executes exactly 61 tick attempts (the counter passes the fixed
ceiling of 60), gives up with a timeout, and still proceeds to export and
to invoke the completion continuation exactly once. -/
theorem C4_prune_poll_bounded (env : AnimEnv) (p : AnimParams)
    (hac : env.actor_exists = true) (hpr : p.prune_last_frame = true)
    (hn : 2 ≤ p.num_frames) (hfile : ∀ t, env.file_exists t = false)
    (hcb : p.has_finished_callback = true) :
    (animRun env p).poll_ticks = 61 ∧
    (animRun env p).prune_result = PruneResult.timedOut 61 ∧
    (animRun env p).export_attempted = true ∧
    (animRun env p).finished_calls = 1 := by
  have hlen : 1 < (animLoop env p 0 env.start_position).2.length := by
    simp [animLoop_zero]
    omega
  rw [animRun, if_neg (by simp [hac])]
  dsimp only
  rw [if_pos ⟨hpr, hlen⟩]
  have hp := pollDelete_timeout env p.has_finished_callback hfile 61 0 (by omega) (by omega)
  rw [hp]
  exact ⟨rfl, rfl, rfl, by simp [callbackCalls, hcb]⟩

/-- C4 witness: on the concrete environment whose file oracle is
constantly false, the poll runs 61 ticks, times out, exports and calls the
continuation once. -/
theorem C4_witness :
    (animRun envW paramsW).poll_ticks = 61 ∧
    (animRun envW paramsW).prune_result = PruneResult.timedOut 61 ∧
    (animRun envW paramsW).export_attempted = true ∧
    (animRun envW paramsW).finished_calls = 1 :=
  C4_prune_poll_bounded envW paramsW rfl rfl (by decide) (fun _ => rfl) rfl

/-- C10: started with `num_frames ≤ 0` and an existing actor, the run
still moves the actor once with progress `0.0`, captures frame 0, and
produces exactly one `FrameRecord` (never zero), which survives pruning
because the one-record list fails the `len > 1` guard. -/
theorem C10_nonpositive_frame_count_still_captures_one (env : AnimEnv)
    (p : AnimParams) (hac : env.actor_exists = true) (hn : p.num_frames ≤ 0) :
    (animRun env p).moves = [poseAt env p 0] ∧
    alphaAt p.num_frames 0 = 0 ∧
    (animRun env p).frame_data = [mkRecord env p 0 env.start_position] ∧
    (animRun env p).frame_data.length = 1 ∧
    (animRun env p).frame_data.map FrameRecord.frame_index = [0] ∧
    (animRun env p).frames_to_save = (animRun env p).frame_data ∧
    (animRun env p).pruned = none := by
  have hz : (p.num_frames - 1).toNat = 0 := by omega
  have hloop := animLoop_zero env p
  rw [hz] at hloop
  have hm : (animLoop env p 0 env.start_position).1 = [poseAt env p 0] := by
    rw [hloop]
    simp [List.range_succ]
  have hr : (animLoop env p 0 env.start_position).2 =
      [mkRecord env p 0 env.start_position] := by
    rw [hloop]
    simp [List.range_succ]
  rw [animRun, if_neg (by simp [hac])]
  dsimp only
  rw [if_neg (by rw [hr]; simp)]
  refine ⟨hm, ?_, hr, by rw [hr]; rfl, by rw [hr]; simp [mkRecord_frame_index], rfl, rfl⟩
  rw [alphaAt, if_neg (by omega)]

/-- C10 witness: the conclusion evaluated at `num_frames = 0` on the
concrete environment. -/
theorem C10_witness :
    (animRun envW { paramsW with num_frames := 0 }).moves =
      [poseAt envW { paramsW with num_frames := 0 } 0] ∧
    alphaAt ({ paramsW with num_frames := 0 } : AnimParams).num_frames 0 = 0 ∧
    (animRun envW { paramsW with num_frames := 0 }).frame_data =
      [mkRecord envW { paramsW with num_frames := 0 } 0 envW.start_position] ∧
    (animRun envW { paramsW with num_frames := 0 }).frame_data.length = 1 ∧
    (animRun envW { paramsW with num_frames := 0 }).frame_data.map
      FrameRecord.frame_index = [0] ∧
    (animRun envW { paramsW with num_frames := 0 }).frames_to_save =
      (animRun envW { paramsW with num_frames := 0 }).frame_data ∧
    (animRun envW { paramsW with num_frames := 0 }).pruned = none :=
  C10_nonpositive_frame_count_still_captures_one envW
    { paramsW with num_frames := 0 } rfl (by decide)

/-- C3: with the actor present, pruning enabled and `frameCount ≥ 2`, the
in-memory record list at finalize time holds exactly `frameCount` records
with contiguous, strictly increasing indices `0..frameCount-1`; pruning
removes exactly the last record, the exported record count is
`frameCount - 1`, and the pruned record's `image_filename` is not among
the filenames of any exported record (the dataset file itself carries no
filenames at all, so it never references the pruned image). -/
theorem C3_record_list_and_prune (env : AnimEnv) (p : AnimParams)
    (hac : env.actor_exists = true) (hpr : p.prune_last_frame = true)
    (hn : 2 ≤ p.num_frames) :
    (animRun env p).frame_data.map FrameRecord.frame_index =
      (List.range p.num_frames.toNat).map (fun (k : ℕ) => (k : ℤ)) ∧
    (animRun env p).frame_data.length = p.num_frames.toNat ∧
    (animRun env p).frames_to_save = (animRun env p).frame_data.dropLast ∧
    (animRun env p).frames_to_save.length = p.num_frames.toNat - 1 ∧
    (exportFrames (animRun env p).frames_to_save).length = p.num_frames.toNat - 1 ∧
    ∃ pr, (animRun env p).pruned = some pr ∧
      pr.frame_index = p.num_frames - 1 ∧
      pr.image_filename = frameFilename (p.num_frames - 1) ∧
      pr.image_filename ∉
        (animRun env p).frames_to_save.map FrameRecord.image_filename := by
  have h1 : (p.num_frames - 1).toNat + 1 = p.num_frames.toNat := by omega
  have hrec : (animLoop env p 0 env.start_position).2 =
      (List.range p.num_frames.toNat).map
        (fun (k : ℕ) => mkRecord env p (k : ℤ)
          (if k = 0 then env.start_position else (poseAt env p ((k : ℤ) - 1)).1)) := by
    rw [animLoop_zero, h1]
  have hidx : (animLoop env p 0 env.start_position).2.map FrameRecord.frame_index =
      (List.range p.num_frames.toNat).map (fun (k : ℕ) => (k : ℤ)) := by
    rw [hrec, List.map_map]
    exact List.map_congr_left fun k _ => rfl
  have hfn : (animLoop env p 0 env.start_position).2.map FrameRecord.image_filename =
      (List.range p.num_frames.toNat).map (fun (k : ℕ) => frameFilename (k : ℤ)) := by
    rw [hrec, List.map_map]
    exact List.map_congr_left fun k _ => rfl
  have hlen2 : (animLoop env p 0 env.start_position).2.length = p.num_frames.toNat := by
    rw [hrec]
    simp
  have hlen : 1 < (animLoop env p 0 env.start_position).2.length := by omega
  have hrange : (List.range p.num_frames.toNat).getLast? =
      some (p.num_frames.toNat - 1) := by
    have h2 : p.num_frames.toNat = (p.num_frames.toNat - 1) + 1 := by omega
    conv_lhs => rw [h2, List.range_succ]
    rw [List.getLast?_concat]
  have hdroprange : (List.range p.num_frames.toNat).dropLast =
      List.range (p.num_frames.toNat - 1) := by
    have h2 : p.num_frames.toNat = (p.num_frames.toNat - 1) + 1 := by omega
    conv_lhs => rw [h2, List.range_succ]
    rw [List.dropLast_concat]
  have hlast : (animLoop env p 0 env.start_position).2.getLast? =
      some (mkRecord env p ((p.num_frames.toNat - 1 : ℕ) : ℤ)
        (poseAt env p (((p.num_frames.toNat - 1 : ℕ) : ℤ) - 1)).1) := by
    rw [hrec, List.getLast?_map, hrange]
    simp only [Option.map_some']
    rw [if_neg (by omega)]
  have hdrop : (animLoop env p 0 env.start_position).2.dropLast.map
      FrameRecord.image_filename =
      (List.range (p.num_frames.toNat - 1)).map (fun (k : ℕ) => frameFilename (k : ℤ)) := by
    rw [List.map_dropLast, hfn, ← List.map_dropLast, hdroprange]
  have hcast : ((p.num_frames.toNat - 1 : ℕ) : ℤ) = p.num_frames - 1 := by omega
  rw [animRun, if_neg (by simp [hac])]
  dsimp only
  rw [if_pos ⟨hpr, hlen⟩]
  refine ⟨hidx, hlen2, rfl, ?_, ?_, ?_⟩
  · rw [List.length_dropLast, hlen2]
  · rw [exportFrames, List.length_map, List.length_dropLast, hlen2]
  · refine ⟨_, hlast, ?_, ?_, ?_⟩
    · rw [mkRecord_frame_index, hcast]
    · rw [mkRecord_image_filename, hcast]
    · rw [mkRecord_image_filename, hcast, hdrop]
      intro hmem
      simp only [List.mem_map, List.mem_range] at hmem
      obtain ⟨k, hk, heq⟩ := hmem
      have := frameFilename_inj (by omega) (by omega) heq
      omega

/-- C3 witness: the record/prune conclusion evaluated on the concrete
3-frame pruning run. -/
theorem C3_witness :
    (animRun envW paramsW).frame_data.map FrameRecord.frame_index =
      (List.range paramsW.num_frames.toNat).map (fun (k : ℕ) => (k : ℤ)) ∧
    (animRun envW paramsW).frame_data.length = paramsW.num_frames.toNat ∧
    (animRun envW paramsW).frames_to_save = (animRun envW paramsW).frame_data.dropLast ∧
    (animRun envW paramsW).frames_to_save.length = paramsW.num_frames.toNat - 1 ∧
    (exportFrames (animRun envW paramsW).frames_to_save).length =
      paramsW.num_frames.toNat - 1 ∧
    ∃ pr, (animRun envW paramsW).pruned = some pr ∧
      pr.frame_index = paramsW.num_frames - 1 ∧
      pr.image_filename = frameFilename (paramsW.num_frames - 1) ∧
      pr.image_filename ∉
        (animRun envW paramsW).frames_to_save.map FrameRecord.image_filename :=
  C3_record_list_and_prune envW paramsW rfl rfl (by decide)

/-- C6: for every frame `i` of a run with the actor present, the pose
applied to the actor is exactly: position computed by the motion-pattern
dispatcher at `progress = alphaAt num_frames i`, yaw linearly
interpolated as `startYaw + progress * totalRotation`, pitch and roll
held at their starting values; and the progress fraction is
`i / (frameCount - 1)` when `frameCount > 1` and `0.0` when
`frameCount = 1` (the dividing branch is not taken in that case). -/
theorem C6_per_frame_pose_formula (env : AnimEnv) (p : AnimParams) (i : ℤ)
    (hac : env.actor_exists = true) (h0 : 0 ≤ i) (hi : i < p.num_frames) :
    (animRun env p).moves[i.toNat]? = some (poseAt env p i) ∧
    (poseAt env p i).1 =
      ⟨(get_position_for_motion env.pymath p.motion_type (alphaAt p.num_frames i)
          env.start_position.x env.start_position.y env.start_position.z
          i p.num_frames ⟨p.total_distance, p.y_amplitude, p.y_frequency⟩).1,
        (get_position_for_motion env.pymath p.motion_type (alphaAt p.num_frames i)
          env.start_position.x env.start_position.y env.start_position.z
          i p.num_frames ⟨p.total_distance, p.y_amplitude, p.y_frequency⟩).2.1,
        (get_position_for_motion env.pymath p.motion_type (alphaAt p.num_frames i)
          env.start_position.x env.start_position.y env.start_position.z
          i p.num_frames ⟨p.total_distance, p.y_amplitude, p.y_frequency⟩).2.2⟩ ∧
    (poseAt env p i).2 =
      ⟨env.start_rotation.pitch,
       env.start_rotation.yaw + alphaAt p.num_frames i * p.total_rotation,
       env.start_rotation.roll⟩ ∧
    (1 < p.num_frames → alphaAt p.num_frames i = (i : ℚ) / ((p.num_frames : ℚ) - 1)) ∧
    (p.num_frames = 1 → alphaAt p.num_frames i = 0) := by
  have hm : (animRun env p).moves =
      (List.range ((p.num_frames - 1).toNat + 1)).map
        (fun (k : ℕ) => poseAt env p (k : ℤ)) := by
    rw [(animRun_fields env p hac).2, animLoop_zero]
  refine ⟨?_, rfl, rfl, fun h => by rw [alphaAt, if_pos h],
    fun h => by rw [alphaAt, if_neg (by omega)]⟩
  rw [hm, List.getElem?_map,
    List.getElem?_range (by omega : i.toNat < (p.num_frames - 1).toNat + 1)]
  simp only [Option.map_some']
  rw [Int.toNat_of_nonneg h0]

/-- C6 witness: the pose formula evaluated at frame 1 of the concrete
3-frame run. -/
theorem C6_witness :
    (animRun envW paramsW).moves[(1 : ℤ).toNat]? = some (poseAt envW paramsW 1) ∧
    (poseAt envW paramsW 1).1 =
      ⟨(get_position_for_motion envW.pymath paramsW.motion_type
          (alphaAt paramsW.num_frames 1) envW.start_position.x
          envW.start_position.y envW.start_position.z
          1 paramsW.num_frames
          ⟨paramsW.total_distance, paramsW.y_amplitude, paramsW.y_frequency⟩).1,
        (get_position_for_motion envW.pymath paramsW.motion_type
          (alphaAt paramsW.num_frames 1) envW.start_position.x
          envW.start_position.y envW.start_position.z
          1 paramsW.num_frames
          ⟨paramsW.total_distance, paramsW.y_amplitude, paramsW.y_frequency⟩).2.1,
        (get_position_for_motion envW.pymath paramsW.motion_type
          (alphaAt paramsW.num_frames 1) envW.start_position.x
          envW.start_position.y envW.start_position.z
          1 paramsW.num_frames
          ⟨paramsW.total_distance, paramsW.y_amplitude, paramsW.y_frequency⟩).2.2⟩ ∧
    (poseAt envW paramsW 1).2 =
      ⟨envW.start_rotation.pitch,
       envW.start_rotation.yaw + alphaAt paramsW.num_frames 1 * paramsW.total_rotation,
       envW.start_rotation.roll⟩ ∧
    (1 < paramsW.num_frames →
      alphaAt paramsW.num_frames 1 = ((1 : ℤ) : ℚ) / ((paramsW.num_frames : ℚ) - 1)) ∧
    (paramsW.num_frames = 1 → alphaAt paramsW.num_frames 1 = 0) :=
  C6_per_frame_pose_formula envW paramsW 1 rfl (by decide) (by decide)

/-- C1: for every configuration and every spawn oracle — including ones
that fail on arbitrary leaves — the Batch Sequencer visits every
`(scene, asset, motion)` triple exactly once and in the declared
configuration order; in particular a spawn failure on motion `k` of an
asset never skips or duplicates a sibling leaf, so motion `k+1` is still
attempted.  (Hypotheses: the map loads and every scene's backdrop setup
succeeds, since a backdrop failure skips a whole scene by design.) -/
theorem C1_sequencer_visits_every_leaf_in_order (cfgs : List HdriConfig)
    (env : BatchEnv) (hmap : env.mapLoadOk = true)
    (hsetup : ∀ k, env.setupOk k = true) :
    visitedLeaves (comprehensiveStart env cfgs) = declaredLeaves cfgs := by
  cases cfgs with
  | nil => rfl
  | cons c rest =>
    have h := visitedLeaves_runScenes env hsetup (c :: rest) 0 none
    simp only [visitedLeaves] at h ⊢
    simp [comprehensiveStart, hmap, leafOfEvent, h, declaredLeaves]

/-- C1 witness: on the concrete two-scene configuration whose spawn
oracle fails on every second motion, the visit trace still equals the
declared leaves, listed explicitly. -/
theorem C1_witness :
    visitedLeaves (comprehensiveStart batchEnvW hdriConfigsW) =
      declaredLeaves hdriConfigsW ∧
    declaredLeaves hdriConfigsW =
      [("HDRI_A", "Cube", "sine_wave"), ("HDRI_A", "Cube", "circle"),
       ("HDRI_A", "Cone", "zigzag"), ("HDRI_B", "Ball", "linear"),
       ("HDRI_B", "Ball", "spiral")] :=
  ⟨C1_sequencer_visits_every_leaf_in_order hdriConfigsW batchEnvW rfl
    (fun _ => rfl), by decide⟩

/-- C8: with no scenes or an empty output root, the `__main__` guard
aborts the run as a configuration error before any scene is touched: the
action trace is empty — no map load, no backdrop or camera setup, no
actor spawn, and no further callbacks. -/
theorem C8_empty_configuration_aborts (env : BatchEnv)
    (cfgs : List HdriConfig) (out : String) (h : cfgs = [] ∨ out = "") :
    mainRun env cfgs out = [] := by
  rw [mainRun, if_pos h]

/-- C8 witness: both degenerate configurations (empty scene list; empty
output root) produce the empty action trace. -/
theorem C8_witness :
    mainRun batchEnvW [] "D:/out" = [] ∧ mainRun batchEnvW hdriConfigsW "" = [] :=
  ⟨C8_empty_configuration_aborts batchEnvW [] "D:/out" (Or.inl rfl),
   C8_empty_configuration_aborts batchEnvW hdriConfigsW "" (Or.inr rfl)⟩

/-- A successful registry lookup yields an entry of the registry. -/
theorem lookup_mem_calc :
    ∀ (l : List (String × MotionCalc)) (k : String) (f : MotionCalc),
    l.lookup k = some f → (k, f) ∈ l := by
  intro l
  induction l with
  | nil => intro k f h; simp [List.lookup] at h
  | cons q rest ih =>
    intro k f h
    obtain ⟨k2, b⟩ := q
    by_cases he : k == k2
    · simp only [List.lookup, he] at h
      have hk : k = k2 := eq_of_beq he
      subst hk
      rw [Option.some.injEq] at h
      subst h
      exact List.mem_cons_self _ _
    · rw [Bool.not_eq_true] at he
      simp only [List.lookup, he] at h
      exact List.mem_cons_of_mem _ (ih k f h)

/-- C9: every registered motion calculator returns a position whose z
coordinate is the starting z, and so does the dispatcher
`get_position_for_motion` for every motion-type string, known or unknown:
all generated motion stays in the XY plane of the starting pose. -/
theorem C9_all_motion_confined_to_xy_plane :
    (∀ entry ∈ MOTION_CALCULATORS, ∀ (M : PyMath) (alpha sx sy sz : ℚ)
      (fi nf : ℤ) (params : MotionParams),
      (entry.2 M alpha sx sy sz fi nf params).2.2 = sz) ∧
    (∀ (M : PyMath) (name : String) (alpha sx sy sz : ℚ) (fi nf : ℤ)
      (params : MotionParams),
      (get_position_for_motion M name alpha sx sy sz fi nf params).2.2 = sz) := by
  have hreg : ∀ entry ∈ MOTION_CALCULATORS, ∀ (M : PyMath) (alpha sx sy sz : ℚ)
      (fi nf : ℤ) (params : MotionParams),
      (entry.2 M alpha sx sy sz fi nf params).2.2 = sz := by
    intro entry hmem M alpha sx sy sz fi nf params
    fin_cases hmem <;> rfl
  refine ⟨hreg, ?_⟩
  intro M name alpha sx sy sz fi nf params
  rw [get_position_for_motion]
  cases hl : MOTION_CALCULATORS.lookup name with
  | none => rfl
  | some f => exact hreg (name, f) (lookup_mem_calc _ _ _ hl) M alpha sx sy sz fi nf params

/-- C9 witness: the z-preservation conclusion evaluated for the
registered sine-wave calculator and for an unknown pattern name. -/
theorem C9_witness :
    (calculate_sine_wave pymathW (1/2) 3 4 5 1 3 ⟨500, 100, 2⟩).2.2 = 5 ∧
    (get_position_for_motion pymathW "no_such_pattern" (1/2) 3 4 5 1 3
      ⟨500, 100, 2⟩).2.2 = 5 :=
  ⟨C9_all_motion_confined_to_xy_plane.1 ("sine_wave", calculate_sine_wave)
    (List.mem_cons_self _ _) pymathW (1/2) 3 4 5 1 3 ⟨500, 100, 2⟩,
   C9_all_motion_confined_to_xy_plane.2 pymathW "no_such_pattern" (1/2) 3 4 5 1 3
    ⟨500, 100, 2⟩⟩

/-- C7 counterexample: `calculate_square_wave` performs no last-frame
epsilon adjustment.  On the last frame (`frame_index = 4`,
`num_frames = 5`) with `alpha = 1` and amplitude `10^6`, the source
returns `(0, 0, 0)`, whereas the spec's subtract-epsilon-from-the-phase
policy (`square_wave_spec_epsilon`) would return `(0, 1, 0)`. -/
theorem C7_counterexample :
    calculate_square_wave pymathW 1 0 0 0 4 5 ⟨0, 1000000, 1⟩ = (0, 0, 0) ∧
    square_wave_spec_epsilon pymathW 1 0 0 0 4 5 ⟨0, 1000000, 1⟩ = (0, 1, 0) ∧
    calculate_square_wave pymathW 1 0 0 0 4 5 ⟨0, 1000000, 1⟩ ≠
      square_wave_spec_epsilon pymathW 1 0 0 0 4 5 ⟨0, 1000000, 1⟩ := by
  have h1 : calculate_square_wave pymathW 1 0 0 0 4 5 ⟨0, 1000000, 1⟩ = (0, 0, 0) := by
    norm_num [calculate_square_wave, pyInt, pyMod]
  have h2 : square_wave_spec_epsilon pymathW 1 0 0 0 4 5 ⟨0, 1000000, 1⟩ = (0, 1, 0) := by
    norm_num [square_wave_spec_epsilon, pyInt, pyMod, seamEpsilon]
  refine ⟨h1, h2, ?_⟩
  rw [h1, h2]
  intro h
  rw [Prod.mk.injEq] at h
  have := h.2
  rw [Prod.mk.injEq] at this
  exact absurd this.1 (by norm_num)

/-- C7 amended: every periodic motion calculator except the square wave
and the zigzag — namely sine wave, circle, spiral, triangle wave,
ellipse, figure-8, arc, bounce, sawtooth, serpentine, lissajous,
pendulum, expanding circle, rectangle loop, diamond, horizontal infinity
and random walk — subtracts `1e-6` from its internal phase on the last
frame (`frame_index = num_frames - 1`), so that on the last frame it
computes its body at the raw phase minus epsilon; `calculate_square_wave`
and `calculate_zigzag` apply no adjustment at all (their output does not
depend on the frame index). -/
theorem C7_amended_epsilon_policy (M : PyMath) (alpha sx sy sz : ℚ)
    (fi fi' nf nf' : ℤ) (params : MotionParams) :
    calculate_sine_wave M alpha sx sy sz (nf - 1) nf params =
      sine_wave_body M alpha sx sy sz params
        (alpha * params.y_frequency * 2 * M.pi - seamEpsilon) ∧
    calculate_circle M alpha sx sy sz (nf - 1) nf params =
      circle_body M alpha sx sy sz params
        (alpha * params.y_frequency * 2 * M.pi - seamEpsilon) ∧
    calculate_spiral M alpha sx sy sz (nf - 1) nf params =
      spiral_body M alpha sx sy sz params
        (alpha * params.y_frequency * 2 * M.pi - seamEpsilon) ∧
    calculate_triangle_wave M alpha sx sy sz (nf - 1) nf params =
      triangle_wave_body M alpha sx sy sz params
        (pyMod (alpha * params.y_frequency) 1 - seamEpsilon) ∧
    calculate_ellipse M alpha sx sy sz (nf - 1) nf params =
      ellipse_body M alpha sx sy sz params
        (alpha * params.y_frequency * 2 * M.pi - seamEpsilon) ∧
    calculate_figure8 M alpha sx sy sz (nf - 1) nf params =
      figure8_body M alpha sx sy sz params
        (alpha * params.y_frequency * 2 * M.pi - seamEpsilon) ∧
    calculate_arc M alpha sx sy sz (nf - 1) nf params =
      arc_body M alpha sx sy sz params (alpha * M.pi - seamEpsilon) ∧
    calculate_bounce M alpha sx sy sz (nf - 1) nf params =
      bounce_body M alpha sx sy sz params
        (alpha * params.y_frequency * M.pi - seamEpsilon) ∧
    calculate_sawtooth M alpha sx sy sz (nf - 1) nf params =
      sawtooth_body M alpha sx sy sz params
        (pyMod (alpha * params.y_frequency) 1 - seamEpsilon) ∧
    calculate_serpentine M alpha sx sy sz (nf - 1) nf params =
      serpentine_body M alpha sx sy sz params
        (alpha * params.y_frequency * 2 * M.pi - seamEpsilon) ∧
    calculate_lissajous M alpha sx sy sz (nf - 1) nf params =
      lissajous_body M alpha sx sy sz params (alpha * 2 * M.pi - seamEpsilon) ∧
    calculate_pendulum M alpha sx sy sz (nf - 1) nf params =
      pendulum_body M alpha sx sy sz params
        (alpha * params.y_frequency * 2 * M.pi - seamEpsilon) ∧
    calculate_expand_circle M alpha sx sy sz (nf - 1) nf params =
      expand_circle_body M alpha sx sy sz params
        (alpha * params.y_frequency * 2 * M.pi - seamEpsilon) ∧
    calculate_rectangle_loop M alpha sx sy sz (nf - 1) nf params =
      rectangle_loop_body M alpha sx sy sz params
        (pyMod (alpha * ((max 1 (pyInt params.y_frequency) : ℤ) : ℚ)) 1 - seamEpsilon) ∧
    calculate_diamond M alpha sx sy sz (nf - 1) nf params =
      diamond_body M alpha sx sy sz params
        (pyMod (alpha * params.y_frequency) 1 - seamEpsilon) ∧
    calculate_infinity_horizontal M alpha sx sy sz (nf - 1) nf params =
      infinity_horizontal_body M alpha sx sy sz params
        (alpha * params.y_frequency * 2 * M.pi - seamEpsilon) ∧
    calculate_random_walk M alpha sx sy sz (nf - 1) nf params =
      random_walk_body M alpha sx sy sz params
        (alpha * params.y_frequency * 2 * M.pi - seamEpsilon) ∧
    calculate_square_wave M alpha sx sy sz fi nf params =
      calculate_square_wave M alpha sx sy sz fi' nf' params ∧
    calculate_zigzag M alpha sx sy sz fi nf params =
      calculate_zigzag M alpha sx sy sz fi' nf' params :=
  ⟨by simp [calculate_sine_wave], by simp [calculate_circle],
   by simp [calculate_spiral], by simp [calculate_triangle_wave],
   by simp [calculate_ellipse], by simp [calculate_figure8],
   by simp [calculate_arc], by simp [calculate_bounce],
   by simp [calculate_sawtooth], by simp [calculate_serpentine],
   by simp [calculate_lissajous], by simp [calculate_pendulum],
   by simp [calculate_expand_circle], by simp [calculate_rectangle_loop],
   by simp [calculate_diamond], by simp [calculate_infinity_horizontal],
   by simp [calculate_random_walk], rfl, rfl⟩
